import Mathlib

/-!
Verification of the gpep517 specification against its source.

The development shallowly embeds the parts of the code that the claims
concern: the PEP 552 bytecode-header codec and the bytecode verifier
(`gpep517/qa.py`), the deduplicating destination writer
(`gpep517/install.py`), the scoped environment overrides
(`gpep517/build.py`), the scheme resolver (`gpep517/utils.py`) and the
`verify-pyc` exit code (`gpep517/__main__.py`).  Byte strings are
`List Nat` (each entry a byte value), filesystem paths are `String`,
path-component lists, or `List Char` depending on the operations the
embedded code performs on them, and filesystems are explicit maps from
paths to contents.
-/

/-! ## Bytecode header codec (`gpep517/qa.py`, `PEP552Header`) -/

/-- Little-endian decoding of the first four bytes of a byte list, as done
by `struct.unpack_from` with format `<L` (absent bytes read as zero; the
codec only ever applies this to lists with at least four bytes). -/
def le32 (b : List Nat) : Nat :=
  b.getD 0 0 + 256 * b.getD 1 0 + 65536 * b.getD 2 0 + 16777216 * b.getD 3 0

/-- Little-endian encoding of a 32-bit quantity into four bytes, the
inverse of `le32`; used to build concrete headers for the round-trip
statements. -/
def enc32 (n : Nat) : List Nat :=
  [n % 256, n / 256 % 256, n / 65536 % 256, n / 16777216 % 256]

/-- Decoded PEP 552 header: either timestamp-based invalidation carrying
the source mtime and size, or hash-based invalidation carrying the
`checked_source` flag and the eight hash bytes. -/
inductive Pep552 where
  | timestampMode (pyTimestamp pySize : Nat)
  | hashMode (checkedSource : Bool) (pyHash : List Nat)
  deriving DecidableEq, Repr

/-- `PEP552Header.__init__` from `gpep517/qa.py` lines 13-49.  `data` is
the byte stream handed to the constructor; `pyc_f.read(16)` yields the
first sixteen bytes (fewer when the stream is shorter), modelled by
`data.take 16`.  `magicNumber` stands for `importlib.util.MAGIC_NUMBER`,
the running interpreter's four-byte magic, which is an externally
supplied constant.  The Python test `flags & ~0x3` is nonzero exactly
when a bit outside the low two is set, i.e. when `4 ≤ flags`. -/
def pep552Header (magicNumber data : List Nat) : Except String Pep552 :=
  let header := data.take 16
  if header.length < 16 then .error "Header too short"
  else if header.take 4 ≠ magicNumber then .error "Invalid magic"
  else
    let flags := le32 (header.drop 4)
    if 4 ≤ flags then .error "Unexpected bits in flags set"
    else
      let invalidateHash : Bool := flags &&& 1 != 0
      let checkedSource : Bool := flags &&& 2 != 0
      if checkedSource && !invalidateHash then
        .error "checked_source flag set for timestamp invalidation"
      else if invalidateHash then
        .ok (.hashMode checkedSource ((header.drop 8).take 8))
      else
        .ok (.timestampMode (le32 (header.drop 8)) (le32 (header.drop 12)))

/-- Whether an `Except` result is a success. -/
def isOkE {ε α : Type} : Except ε α → Bool
  | .ok _ => true
  | .error _ => false

/-- Computable character-level version of `str.startswith` (the
built-in `String.startsWith` does not reduce inside the kernel). -/
def startsWithS (s pre : String) : Bool :=
  pre.data.isPrefixOf s.data

/-- Computable character-level version of `str.endswith`. -/
def endsWithS (s suf : String) : Bool :=
  suf.data.isSuffixOf s.data

theorem le32_enc32_append (n : Nat) (rest : List Nat) :
    le32 (enc32 n ++ rest) = n % 4294967296 := by
  simp only [le32, enc32, List.cons_append, List.nil_append, List.getD_cons_zero,
    List.getD_cons_succ]
  omega

theorem le32_enc32 (n : Nat) : le32 (enc32 n) = n % 4294967296 := by
  have h := le32_enc32_append n []
  simpa using h

theorem take16_take4 (data : List Nat) : (data.take 16).take 4 = data.take 4 := by
  rw [List.take_take]
  norm_num

/-- C4: the header codec fails exactly when the input has fewer than 16
readable bytes, or the first four bytes differ from the interpreter magic,
or the little-endian flag word has a bit outside bits 0 and 1 set
(`4 ≤ flags`), or bit 1 is set while bit 0 is clear (`flags = 2`); every
other header parses, and a header built as magic/flags 0/mtime/size
decodes to timestamp mode recovering exactly the mtime and size, while a
header built as magic/flags 1/hash decodes to hash mode recovering
exactly the eight hash bytes. -/
theorem pep552_header_codec_exact (magic : List Nat) (hm : magic.length = 4) :
    (∀ data : List Nat,
        isOkE (pep552Header magic data) = false ↔
          (data.length < 16 ∨ data.take 4 ≠ magic ∨
            4 ≤ le32 ((data.take 16).drop 4) ∨ le32 ((data.take 16).drop 4) = 2))
  ∧ (∀ t s : Nat, t < 4294967296 → s < 4294967296 →
        pep552Header magic (magic ++ enc32 0 ++ enc32 t ++ enc32 s)
          = .ok (.timestampMode t s))
  ∧ (∀ h : List Nat, h.length = 8 →
        pep552Header magic (magic ++ enc32 1 ++ h) = .ok (.hashMode false h)) := by
  refine ⟨?_, ?_, ?_⟩
  · intro data
    by_cases hlen : data.length < 16
    · have hl : (data.take 16).length < 16 := by
        simp only [List.length_take]
        omega
      simp [pep552Header, hl, isOkE, hlen]
    · push_neg at hlen
      have hnot : ¬ ((data.take 16).length < 16) := by
        simp only [List.length_take]
        omega
      by_cases hmag : data.take 4 = magic
      · have hcond : ¬ ((data.take 16).take 4 ≠ magic) := by
          rw [take16_take4]
          exact fun hne => hne hmag
        simp only [pep552Header]
        rw [if_neg hnot, if_neg hcond]
        generalize hF : le32 ((data.take 16).drop 4) = F
        by_cases h4 : 4 ≤ F
        · simp [h4, isOkE, hmag, show ¬ data.length < 16 from by omega]
        · have : F = 0 ∨ F = 1 ∨ F = 2 ∨ F = 3 := by omega
          rcases this with rfl | rfl | rfl | rfl <;>
            simp [isOkE, hmag, show ¬ data.length < 16 from by omega]
      · have hcond : (data.take 16).take 4 ≠ magic := by
          rw [take16_take4]
          exact hmag
        simp only [pep552Header]
        rw [if_neg hnot, if_pos hcond]
        simp [isOkE, hmag]
  · intro t s ht hs
    have hlen : (magic ++ (enc32 0 ++ (enc32 t ++ enc32 s))).length = 16 := by
      simp [enc32, hm]
    have htake : List.take 16 (magic ++ (enc32 0 ++ (enc32 t ++ enc32 s)))
        = magic ++ (enc32 0 ++ (enc32 t ++ enc32 s)) :=
      List.take_of_length_le (le_of_eq hlen)
    have htake4 : List.take 4 (magic ++ (enc32 0 ++ (enc32 t ++ enc32 s))) = magic :=
      List.take_left' hm
    have hdrop4 : List.drop 4 (magic ++ (enc32 0 ++ (enc32 t ++ enc32 s)))
        = enc32 0 ++ (enc32 t ++ enc32 s) :=
      List.drop_left' hm
    have hassoc8 : magic ++ (enc32 0 ++ (enc32 t ++ enc32 s))
        = (magic ++ enc32 0) ++ (enc32 t ++ enc32 s) := by
      simp [List.append_assoc]
    have hdrop8 : List.drop 8 (magic ++ (enc32 0 ++ (enc32 t ++ enc32 s)))
        = enc32 t ++ enc32 s := by
      rw [hassoc8]
      exact List.drop_left' (by simp [enc32, hm])
    have hassoc12 : magic ++ (enc32 0 ++ (enc32 t ++ enc32 s))
        = ((magic ++ enc32 0) ++ enc32 t) ++ enc32 s := by
      simp [List.append_assoc]
    have hdrop12 : List.drop 12 (magic ++ (enc32 0 ++ (enc32 t ++ enc32 s)))
        = enc32 s := by
      rw [hassoc12]
      exact List.drop_left' (by simp [enc32, hm])
    simp [pep552Header, htake, htake4, hdrop4, hdrop8, hdrop12, hlen,
      le32_enc32_append, le32_enc32, Nat.mod_eq_of_lt ht, Nat.mod_eq_of_lt hs]
  · intro h hh
    have hlen : (magic ++ (enc32 1 ++ h)).length = 16 := by
      simp [enc32, hm, hh]
    have htake : List.take 16 (magic ++ (enc32 1 ++ h)) = magic ++ (enc32 1 ++ h) :=
      List.take_of_length_le (le_of_eq hlen)
    have htake4 : List.take 4 (magic ++ (enc32 1 ++ h)) = magic :=
      List.take_left' hm
    have hdrop4 : List.drop 4 (magic ++ (enc32 1 ++ h)) = enc32 1 ++ h :=
      List.drop_left' hm
    have hassoc8 : magic ++ (enc32 1 ++ h) = (magic ++ enc32 1) ++ h := by
      simp [List.append_assoc]
    have hdrop8 : List.drop 8 (magic ++ (enc32 1 ++ h)) = h := by
      rw [hassoc8]
      exact List.drop_left' (by simp [enc32, hm])
    simp [pep552Header, htake, htake4, hdrop4, hdrop8, hlen,
      le32_enc32_append, List.take_of_length_le (le_of_eq hh)]

/-- Witness for C4: with the concrete magic `b"\x50\x0d\x0d\x0a"`, a
timestamp header with mtime 5 and size 7 round-trips. -/
theorem pep552_header_codec_exact_witness :
    pep552Header [80, 13, 13, 10] ([80, 13, 13, 10] ++ enc32 0 ++ enc32 5 ++ enc32 7)
      = .ok (.timestampMode 5 7) :=
  (pep552_header_codec_exact [80, 13, 13, 10] (by decide)).2.1 5 7 (by decide) (by decide)

/-! ## Deduplicating destination writer: conflict handling
(`gpep517/install.py`, `DeduplicatingDestination.write_to_fs` lines 69-78) -/

/-- Python exception classes appearing in the embedded code. -/
inductive PyErr where
  | fileExists
  | fileNotFound
  | runtimeError
  | notImplementedError
  deriving DecidableEq, Repr

/-- A flat filesystem for the writer: file contents indexed by the
resolved target path. -/
def WFS : Type := String → Option (List Nat)

/-- Modelled from the spec: the installer library's
`SchemeDictionaryDestination.write_to_fs` (a third-party collaborator,
not part of this repository) performs an exclusive-create write — it
must fail with `FileExistsError` when the target already exists, leaving
the filesystem untouched, and otherwise writes the entry bytes
(spec section 4.3, write protocol steps 2-3).  `p` is the resolved
target path of the entry. -/
def superWriteToFs (fs : WFS) (p : String) (content : List Nat) :
    Option PyErr × WFS :=
  if (fs p).isSome then (some .fileExists, fs)
  else (none, fun q => if q = p then some content else fs q)

/-- `Path.unlink`: remove the entry at `p`. -/
def unlinkW (fs : WFS) (p : String) : WFS :=
  fun q => if q = p then none else fs q

/-- Lines 69-78 of `gpep517/install.py` (`DeduplicatingDestination.
write_to_fs`, conflict handling): try the underlying write; on
`FileExistsError` re-raise unless `overwrite` is set, else unlink the
resolved target and call the underlying write a second time, whose
outcome — success or a second failure — is returned as is (there is no
loop).  The underlying writer is the `inner` parameter, instantiated
with `superWriteToFs`; any error other than `FileExistsError`
propagates. -/
def writeToFsOverwrite (overwrite : Bool)
    (inner : WFS → String → List Nat → Option PyErr × WFS)
    (fs : WFS) (p : String) (content : List Nat) : Option PyErr × WFS :=
  match inner fs p content with
  | (none, fs1) => (none, fs1)
  | (some e, fs1) =>
      if e = .fileExists then
        if overwrite then inner (unlinkW fs1 p) p content
        else (some e, fs1)
      else (some e, fs1)

/-- C1: with a pre-existing file at the target, (a) overwrite disabled
propagates `FileExistsError` and leaves the filesystem — in particular
the pre-existing content — unchanged; (b) overwrite enabled unlinks the
target, retries once, succeeds, and the final content at the target is
the new entry's content; (c) the retry is performed exactly once: for
any underlying writer whose first call fails with `FileExistsError`,
the wrapper returns the second call's outcome verbatim, so a second
existence failure propagates as fatal. -/
theorem write_to_fs_overwrite_conflict (fs : WFS) (p : String)
    (content old : List Nat) (hex : fs p = some old) :
    writeToFsOverwrite false superWriteToFs fs p content = (some .fileExists, fs)
  ∧ ((writeToFsOverwrite true superWriteToFs fs p content).1 = none
      ∧ (writeToFsOverwrite true superWriteToFs fs p content).2 p = some content)
  ∧ (∀ (inner : WFS → String → List Nat → Option PyErr × WFS)
        (r : Option PyErr × WFS),
        inner fs p content = (some .fileExists, fs) →
        inner (unlinkW fs p) p content = r →
        writeToFsOverwrite true inner fs p content = r) := by
  have hsome : (fs p).isSome = true := by rw [hex]; rfl
  refine ⟨?_, ⟨?_, ?_⟩, ?_⟩
  · simp [writeToFsOverwrite, superWriteToFs, hsome]
  · simp [writeToFsOverwrite, superWriteToFs, hsome, unlinkW]
  · simp [writeToFsOverwrite, superWriteToFs, hsome, unlinkW]
  · intro inner r h1 h2
    simp [writeToFsOverwrite, h1, h2]

/-- Witness for C1 at a concrete filesystem holding `[9]` at the target:
overwrite disabled fails with `FileExistsError` leaving the file as is;
overwrite enabled rewrites it to `[3, 4]`; and with an underlying writer
that fails with `FileExistsError` on both calls, the second failure is
returned. -/
theorem write_to_fs_overwrite_conflict_witness :
    writeToFsOverwrite false superWriteToFs
        (fun q => if q = "/d/usr/lib/pkg/mod.py" then some [9] else none)
        "/d/usr/lib/pkg/mod.py" [3, 4]
      = (some .fileExists, fun q => if q = "/d/usr/lib/pkg/mod.py" then some [9] else none)
  ∧ ((writeToFsOverwrite true superWriteToFs
        (fun q => if q = "/d/usr/lib/pkg/mod.py" then some [9] else none)
        "/d/usr/lib/pkg/mod.py" [3, 4]).1 = none
      ∧ (writeToFsOverwrite true superWriteToFs
        (fun q => if q = "/d/usr/lib/pkg/mod.py" then some [9] else none)
        "/d/usr/lib/pkg/mod.py" [3, 4]).2 "/d/usr/lib/pkg/mod.py" = some [3, 4])
  ∧ (∀ (inner : WFS → String → List Nat → Option PyErr × WFS)
        (r : Option PyErr × WFS),
        inner (fun q => if q = "/d/usr/lib/pkg/mod.py" then some [9] else none)
          "/d/usr/lib/pkg/mod.py" [3, 4]
          = (some .fileExists,
             fun q => if q = "/d/usr/lib/pkg/mod.py" then some [9] else none) →
        inner (unlinkW (fun q => if q = "/d/usr/lib/pkg/mod.py" then some [9] else none)
          "/d/usr/lib/pkg/mod.py") "/d/usr/lib/pkg/mod.py" [3, 4] = r →
        writeToFsOverwrite true inner
          (fun q => if q = "/d/usr/lib/pkg/mod.py" then some [9] else none)
          "/d/usr/lib/pkg/mod.py" [3, 4] = r) :=
  write_to_fs_overwrite_conflict
    (fun q => if q = "/d/usr/lib/pkg/mod.py" then some [9] else none)
    "/d/usr/lib/pkg/mod.py" [3, 4] [9] (by simp)

/-! ## Destination construction (`gpep517/install.py`,
`DeduplicatingDestination.__init__` lines 24-51) -/

/-- The scheme dictionary entries consulted by the constructor checks. -/
structure SchemeDict where
  purelib : String
  platlib : String
  deriving DecidableEq, Repr

/-- The destination state recorded by the constructor. -/
structure DedupDest where
  overwrite : Bool
  symlinkPyc : Bool
  symlinkTo : Option (List String)
  deriving DecidableEq, Repr

/-- `DeduplicatingDestination.__init__`: after the superclass setup it
stores the three flags and, only when `symlink_to` is configured, checks
that the platform is not Windows (`os.name == "nt"` raises
`RuntimeError`) and that `platlib` equals `purelib` (otherwise
`NotImplementedError`).  No check is performed when `symlink_to` is
absent, whatever the value of `symlink_pyc`. -/
def dedupDestInit (osName : String) (scheme : SchemeDict)
    (overwrite symlinkPyc : Bool) (symlinkTo : Option (List String)) :
    Except PyErr DedupDest :=
  match symlinkTo with
  | some _ =>
      if osName = "nt" then .error .runtimeError
      else if scheme.platlib ≠ scheme.purelib then .error .notImplementedError
      else .ok ⟨overwrite, symlinkPyc, symlinkTo⟩
  | none => .ok ⟨overwrite, symlinkPyc, symlinkTo⟩

/-- Counterexample for C7: `--symlink-pyc` is a symlink-based
deduplication feature, yet requesting it on Windows (`os.name = "nt"`)
with no `--symlink-to` passes destination construction — nothing is
rejected at configuration time, contradicting the claim that any
symlink-based deduplication request is validated at construction. -/
theorem dedup_init_symlink_pyc_not_checked :
    dedupDestInit "nt" ⟨"/usr/lib/python3.12/site-packages",
        "/usr/lib/python3.12/site-packages"⟩ false true none
      = .ok ⟨false, true, none⟩ := by
  rfl

/-- C7 (amended): the construction-time validation applies exactly to
the `--symlink-to` dedup-target feature: with a dedup target configured,
construction on Windows fails with `RuntimeError`, and construction with
`platlib` different from `purelib` fails with `NotImplementedError`,
both before any file is written; without a dedup target construction
always succeeds (in particular `--symlink-pyc` alone is not validated at
construction time). -/
theorem dedup_init_validation (osName : String) (scheme : SchemeDict)
    (overwrite symlinkPyc : Bool) (target : List String) :
    (osName = "nt" →
        dedupDestInit osName scheme overwrite symlinkPyc (some target)
          = .error .runtimeError)
  ∧ (osName ≠ "nt" → scheme.platlib ≠ scheme.purelib →
        dedupDestInit osName scheme overwrite symlinkPyc (some target)
          = .error .notImplementedError)
  ∧ dedupDestInit osName scheme overwrite symlinkPyc none
      = .ok ⟨overwrite, symlinkPyc, none⟩ := by
  refine ⟨?_, ?_, rfl⟩
  · intro hnt
    simp [dedupDestInit, hnt]
  · intro hnt hne
    simp [dedupDestInit, hnt, hne]

/-- Witness for C7 (amended) at concrete inputs: on Windows a dedup
target is rejected with `RuntimeError`; elsewhere asymmetric
platlib/purelib is rejected with `NotImplementedError`; no target means
no rejection. -/
theorem dedup_init_validation_witness :
    dedupDestInit "nt" ⟨"/usr/lib/sp", "/usr/lib/sp"⟩ false false (some ["..", "other"])
      = .error .runtimeError
  ∧ dedupDestInit "posix" ⟨"/usr/lib/sp", "/usr/lib64/sp"⟩ false false
      (some ["..", "other"]) = .error .notImplementedError
  ∧ dedupDestInit "posix" ⟨"/usr/lib/sp", "/usr/lib64/sp"⟩ true true none
      = .ok ⟨true, true, none⟩ :=
  ⟨(dedup_init_validation "nt" ⟨"/usr/lib/sp", "/usr/lib/sp"⟩ false false
      ["..", "other"]).1 rfl,
   (dedup_init_validation "posix" ⟨"/usr/lib/sp", "/usr/lib64/sp"⟩ false false
      ["..", "other"]).2.1 (by decide) (by decide),
   (dedup_init_validation "posix" ⟨"/usr/lib/sp", "/usr/lib64/sp"⟩ true true
      ["..", "other"]).2.2⟩

/-! ## Scoped environment overrides (`gpep517/build.py`) -/

/-- The mutable global state touched by the three context managers:
the three `zipfile.ZipFile` methods, the two `sysconfig` functions
(each an opaque function value, represented by an identifier), the set
of loaded modules (`sys.modules` keys) and the import path
(`sys.path`). -/
structure PyGlobals where
  zipOpen : Nat
  zipWrite : Nat
  zipWritestr : Nat
  cfgVars : Nat
  getPlatform : Nat
  modules : List String
  sysPath : List String
  deriving DecidableEq, Repr

/-- A `with`-statement body: it may mutate the globals arbitrarily and
either return normally (`none`) or raise (`some e`). -/
def CtxBody : Type := PyGlobals → Option PyErr × PyGlobals

/-- `disable_zip_compression` (build.py lines 18-55): save the three
`zipfile.ZipFile` methods, install the overriding wrappers (`ov1`-`ov3`
stand for the wrapper function values), run the body, and in the
`finally` block restore the saved originals on every exit path. -/
def disableZipCompression (ov1 ov2 ov3 : Nat) (body : CtxBody)
    (s : PyGlobals) : Option PyErr × PyGlobals :=
  let origOpen := s.zipOpen
  let origWrite := s.zipWrite
  let origWritestr := s.zipWritestr
  let s1 := { s with zipOpen := ov1, zipWrite := ov2, zipWritestr := ov3 }
  let res := body s1
  (res.1, { res.2 with
    zipOpen := origOpen, zipWrite := origWrite, zipWritestr := origWritestr })

/-- `patch_sysconfig` (build.py lines 58-122): the pre-`yield` part
validates that the stdlib path is absolute and that exactly one
`_sysconfigdata_*.py` file was globbed, raising `RuntimeError` before
any global is touched otherwise; then it saves
`sysconfig.get_config_vars`/`sysconfig.get_platform`, installs the
patched functions (`pc`/`pp` stand for their function values), runs the
body, and in the `finally` block restores the originals on every exit
path.  `stdlibPath` is the `sysconfig.get_path("stdlib", ...)` result
and `dataPathsLen` the number of globbed sysconfigdata files. -/
def patchSysconfig (stdlibPath : String) (dataPathsLen : Nat)
    (pc pp : Nat) (body : CtxBody) (s : PyGlobals) :
    Option PyErr × PyGlobals :=
  if ¬ startsWithS stdlibPath "/" then (some .runtimeError, s)
  else if dataPathsLen ≠ 1 then (some .runtimeError, s)
  else
    let origCfg := s.cfgVars
    let origPlat := s.getPlatform
    let s1 := { s with cfgVars := pc, getPlatform := pp }
    let res := body s1
    (res.1, { res.2 with cfgVars := origCfg, getPlatform := origPlat })

/-- `scope_modules` (build.py lines 125-135): record the loaded modules
and the import path, run the body, and in the `finally` block delete
every module not present before and restore `sys.path`, on every exit
path. -/
def scopeModules (body : CtxBody) (s : PyGlobals) :
    Option PyErr × PyGlobals :=
  let origModules := s.modules
  let origPath := s.sysPath
  let res := body s
  (res.1, { res.2 with
    modules := res.2.modules.filter (fun m => m ∈ origModules),
    sysPath := origPath })

/-- C8: each scoped override restores what it overrode on every exit
path — normal return or exception alike (the body is arbitrary, so both
outcomes are covered): `disable_zip_compression` restores the three
`zipfile.ZipFile` methods, `patch_sysconfig` restores
`sysconfig.get_config_vars` and `sysconfig.get_platform`, and
`scope_modules` restores `sys.path` exactly and removes every module
added by the body (every module present after exit was present before
entry). -/
theorem scoped_overrides_restored (s : PyGlobals) (body : CtxBody)
    (ov1 ov2 ov3 pc pp : Nat) (stdlibPath : String) (dataPathsLen : Nat) :
    ((disableZipCompression ov1 ov2 ov3 body s).2.zipOpen = s.zipOpen
      ∧ (disableZipCompression ov1 ov2 ov3 body s).2.zipWrite = s.zipWrite
      ∧ (disableZipCompression ov1 ov2 ov3 body s).2.zipWritestr = s.zipWritestr)
  ∧ ((patchSysconfig stdlibPath dataPathsLen pc pp body s).2.cfgVars = s.cfgVars
      ∧ (patchSysconfig stdlibPath dataPathsLen pc pp body s).2.getPlatform
          = s.getPlatform)
  ∧ ((scopeModules body s).2.sysPath = s.sysPath
      ∧ ∀ m, m ∈ (scopeModules body s).2.modules → m ∈ s.modules) := by
  refine ⟨⟨rfl, rfl, rfl⟩, ?_, ⟨rfl, ?_⟩⟩
  · unfold patchSysconfig
    by_cases h1 : startsWithS stdlibPath "/"
    · by_cases h2 : dataPathsLen = 1 <;> simp [h1, h2]
    · simp [h1]
  · intro m hm
    unfold scopeModules at hm
    simp only [List.mem_filter] at hm
    exact of_decide_eq_true hm.2

/-- Witness for C8 at a concrete state and a body that mutates
everything and raises: all overridden globals are back to their
pre-entry values after exit. -/
theorem scoped_overrides_restored_witness :
    ((disableZipCompression 11 12 13
        (fun _ => (some .runtimeError, ⟨99, 99, 99, 99, 99, ["x"], ["y"]⟩))
        ⟨1, 2, 3, 4, 5, ["a"], ["p"]⟩).2.zipOpen = 1
      ∧ (disableZipCompression 11 12 13
        (fun _ => (some .runtimeError, ⟨99, 99, 99, 99, 99, ["x"], ["y"]⟩))
        ⟨1, 2, 3, 4, 5, ["a"], ["p"]⟩).2.zipWrite = 2
      ∧ (disableZipCompression 11 12 13
        (fun _ => (some .runtimeError, ⟨99, 99, 99, 99, 99, ["x"], ["y"]⟩))
        ⟨1, 2, 3, 4, 5, ["a"], ["p"]⟩).2.zipWritestr = 3)
  ∧ ((patchSysconfig "/usr/lib/python3.12" 1 21 22
        (fun _ => (some .runtimeError, ⟨99, 99, 99, 99, 99, ["x"], ["y"]⟩))
        ⟨1, 2, 3, 4, 5, ["a"], ["p"]⟩).2.cfgVars = 4
      ∧ (patchSysconfig "/usr/lib/python3.12" 1 21 22
        (fun _ => (some .runtimeError, ⟨99, 99, 99, 99, 99, ["x"], ["y"]⟩))
        ⟨1, 2, 3, 4, 5, ["a"], ["p"]⟩).2.getPlatform = 5)
  ∧ ((scopeModules
        (fun _ => (some .runtimeError, ⟨99, 99, 99, 99, 99, ["x"], ["y"]⟩))
        ⟨1, 2, 3, 4, 5, ["a"], ["p"]⟩).2.sysPath = ["p"]
      ∧ ∀ m, m ∈ (scopeModules
        (fun _ => (some .runtimeError, ⟨99, 99, 99, 99, 99, ["x"], ["y"]⟩))
        ⟨1, 2, 3, 4, 5, ["a"], ["p"]⟩).2.modules → m ∈ ["a"]) :=
  scoped_overrides_restored ⟨1, 2, 3, 4, 5, ["a"], ["p"]⟩
    (fun _ => (some .runtimeError, ⟨99, 99, 99, 99, 99, ["x"], ["y"]⟩))
    11 12 13 21 22 "/usr/lib/python3.12" 1

/-! ## Scheme resolver (`gpep517/utils.py`, `install_scheme_dict`) -/

/-- The externally supplied `sysconfig` results that
`install_scheme_dict` consumes: `paths` is the dictionary returned by
`sysconfig.get_paths(vars={base: prefix, platbase: prefix})` and
`includePath` the result of
`sysconfig.get_path("include", vars={installed_base: prefix})`. -/
structure SysconfigEnv where
  paths : List (String × String)
  includePath : String

/-- `os.path.join` for two POSIX path arguments: an absolute second
argument replaces the first; otherwise the parts are joined with a
single separator unless the first already ends in one or is empty. -/
def osPathJoin (a b : String) : String :=
  if startsWithS b "/" then b
  else if a = "" ∨ endsWithS a "/" then a ++ b
  else a ++ "/" ++ b

/-- Python dictionary assignment `d[k] = v` on an association list:
replace the binding if the key is present, append it otherwise. -/
def setKey (l : List (String × String)) (k v : String) :
    List (String × String) :=
  if l.any (fun kv => kv.1 == k) then
    l.map (fun kv => if kv.1 == k then (k, v) else kv)
  else l ++ [(k, v)]

/-- Python dictionary lookup `d[k]` on an association list. -/
def getKey (l : List (String × String)) (k : String) : Option String :=
  (l.find? (fun kv => kv.1 == k)).map (fun kv => kv.2)

/-- `install_scheme_dict` from `gpep517/utils.py` lines 30-38: take the
`sysconfig.get_paths` result as is and set its `headers` entry to the
include path joined with the distribution name.  There is no
validation of any path — in particular no absoluteness check — and no
error path. -/
def install_scheme_dict (env : SysconfigEnv) (distName : String) :
    List (String × String) :=
  setKey env.paths "headers" (osPathJoin env.includePath distName)

theorem findSetKeyMap (k v : String) :
    ∀ l : List (String × String),
      l.any (fun kv => kv.1 == k) = true →
      (l.map (fun kv => if kv.1 == k then (k, v) else kv)).find?
          (fun kv => kv.1 == k) = some (k, v) := by
  intro l
  induction l with
  | nil => intro h; simp at h
  | cons a t ih =>
    intro h
    by_cases ha : a.1 = k
    · simp [List.find?, ha]
    · have ha' : (a.1 == k) = false := by
        simpa using ha
      have ht : t.any (fun kv => kv.1 == k) = true := by
        simpa [ha'] using h
      simpa [List.find?, ha'] using ih ht

theorem findAppendNew (k v : String) :
    ∀ l : List (String × String),
      l.any (fun kv => kv.1 == k) = false →
      (l ++ [(k, v)]).find? (fun kv => kv.1 == k) = some (k, v) := by
  intro l
  induction l with
  | nil => intro _; simp [List.find?]
  | cons a t ih =>
    intro h
    have ha : (a.1 == k) = false := by
      by_contra hc
      have : (a.1 == k) = true := by
        simpa using hc
      simp [this] at h
    have ht : t.any (fun kv => kv.1 == k) = false := by
      simpa [ha] using h
    simpa [List.find?, ha] using ih ht

theorem getKey_setKey (l : List (String × String)) (k v : String) :
    getKey (setKey l k v) k = some v := by
  unfold getKey setKey
  by_cases h : l.any (fun kv => kv.1 == k)
  · rw [if_pos h, findSetKeyMap k v l h]
    rfl
  · rw [if_neg h, findAppendNew k v l (Bool.eq_false_iff.mpr h)]
    rfl

/-- Counterexample for C9: with the platform-reported include path
`lib/include` — not absolute — the scheme resolver does not fail at all:
it returns the scheme mapping with the headers entry joined under the
relative include path.  There is no `ConfigurationError` (nor any other
error) in `install_scheme_dict`. -/
theorem install_scheme_dict_no_absolute_check :
    startsWithS "lib/include" "/" = false
  ∧ install_scheme_dict
        ⟨[("purelib", "/usr/lib/python3.12/site-packages")], "lib/include"⟩
        "mypkg"
      = [("purelib", "/usr/lib/python3.12/site-packages"),
         ("headers", "lib/include/mypkg")] := by
  constructor
  · decide
  · decide

/-- C9 (amended): the scheme resolver always returns the mapping with
the headers entry at the include directory joined with the distribution
name, performing no absoluteness validation; the absolute-path
precondition on the platform-reported stdlib path is enforced elsewhere
— in `patch_sysconfig` (build.py lines 66-68), which fails with
`RuntimeError` (the spec's configuration-error class) before touching
any global when the stdlib path is not absolute. -/
theorem install_scheme_headers_and_stdlib_precondition :
    (∀ (env : SysconfigEnv) (distName : String),
        getKey (install_scheme_dict env distName) "headers"
          = some (osPathJoin env.includePath distName))
  ∧ (∀ (stdlibPath : String) (dataPathsLen pc pp : Nat) (body : CtxBody)
        (s : PyGlobals),
        startsWithS stdlibPath "/" = false →
        patchSysconfig stdlibPath dataPathsLen pc pp body s
          = (some .runtimeError, s)) := by
  constructor
  · intro env d
    exact getKey_setKey _ _ _
  · intro sp dl pc pp body s h
    simp [patchSysconfig, h]

/-- Witness for C9 (amended): concrete headers entry, and a concrete
relative stdlib path making `patch_sysconfig` fail fast. -/
theorem install_scheme_headers_and_stdlib_precondition_witness :
    getKey (install_scheme_dict
        ⟨[("purelib", "/usr/lib/python3.12/site-packages")], "/usr/include/python3.12"⟩
        "mypkg") "headers"
      = some (osPathJoin "/usr/include/python3.12" "mypkg")
  ∧ patchSysconfig "lib/python3.12" 1 21 22
        (fun g => (none, g)) ⟨1, 2, 3, 4, 5, ["a"], ["p"]⟩
      = (some .runtimeError, ⟨1, 2, 3, 4, 5, ["a"], ["p"]⟩) :=
  ⟨install_scheme_headers_and_stdlib_precondition.1
      ⟨[("purelib", "/usr/lib/python3.12/site-packages")], "/usr/include/python3.12"⟩
      "mypkg",
   install_scheme_headers_and_stdlib_precondition.2
      "lib/python3.12" 1 21 22 (fun g => (none, g)) ⟨1, 2, 3, 4, 5, ["a"], ["p"]⟩
      (by decide)⟩

/-! ## Bytecode verifier (`gpep517/qa.py`, `qa_verify_pyc`, and the
`verify-pyc` exit code from `gpep517/__main__.py` lines 286-301) -/

/-- Character-level file paths for the verifier (Python `str.endswith`
filtering and path equality are character operations). -/
abbrev PathC := List Char

/-- The two stat fields the verifier reads from the source file:
`int(st_mtime)` (the POSIX mtime truncated to an integer) and
`st_size`. -/
structure SrcStat where
  mtimeInt : Int
  size : Nat
  deriving DecidableEq, Repr

/-- A file visible to the verifier: its bytes and its stat data. -/
structure VFile where
  content : List Nat
  stat : SrcStat
  deriving DecidableEq, Repr

/-- The filesystem the verifier reads from. -/
def VFS : Type := PathC → Option VFile

/-- One file found by `os.walk`: the directory it lives in and its
file name (the name contains no separator). -/
structure WalkEntry where
  dir : PathC
  name : PathC
  deriving DecidableEq, Repr

/-- `Path(path) / fn`: join a walk directory and a file name. -/
def joinC (dir name : PathC) : PathC :=
  dir ++ ('/' :: name)

/-- `str.rpartition('.')`: split a file name at its last dot into
(before, separator, after); when there is no dot the name ends up in
the third component, as in Python. -/
def rpartitionDot (name : PathC) : PathC × PathC × PathC :=
  let r := name.reverse
  let restRev := r.takeWhile (fun c => c ≠ '.')
  match r.dropWhile (fun c => c ≠ '.') with
  | [] => ([], [], name)
  | _ :: baseRev => (baseRev.reverse, ['.'], restRev.reverse)

/-- Decimal digits of a number, for the `.opt-N` suffix. -/
def natDigits (n : Nat) : PathC :=
  Nat.toDigits 10 n

/-- `importlib.util.cache_from_source` (external collaborator, modelled
from CPython): for a source file `name` in directory `dir`, the cache
for optimization level `opt` (`none` encodes the empty optimization
argument used for level 0) lives at
`dir/__pycache__/<stem><sep><cache_tag>[.opt-N].pyc`, where
`(stem, sep, _)` come from `name.rpartition('.')` (the whole name when
there is no dot).  `cacheTag` stands for
`sys.implementation.cache_tag`, an externally supplied constant. -/
def cacheFromSource (cacheTag : PathC) (dir name : PathC)
    (opt : Option Nat) : PathC :=
  let bsr := rpartitionDot name
  let stem := if bsr.1 = [] then bsr.2.2 else bsr.1
  let optSuffix : PathC := match opt with
    | none => []
    | some n => (".opt-").data ++ natDigits n
  dir ++ ('/' :: ("__pycache__/").data) ++ stem ++ bsr.2.1 ++ cacheTag
    ++ optSuffix ++ (".pyc").data

/-- The three optimization levels iterated by the verifier, qa.py line
76: `for opt in ("", 1, 2)`. -/
def optLevels : List (Option Nat) :=
  [none, some 1, some 2]

/-- The verifier's accumulating state: the pending cache set and the
first three finding lists. -/
structure VState where
  pycs : List PathC
  missing : List (PathC × PathC)
  invalid : List (PathC × PathC)
  mismatched : List (PathC × PathC × String)
  deriving DecidableEq, Repr

/-- The verifier report (qa.py lines 112-117). -/
structure Report where
  missing : List (PathC × PathC)
  invalid : List (PathC × PathC)
  mismatched : List (PathC × PathC × String)
  stray : List PathC
  deriving DecidableEq, Repr

/-- The body of the inner loop of `qa_verify_pyc` (qa.py lines 76-107)
for one source file and one optimization level: compute the expected
cache path; if it is not pending, record a missing finding; otherwise
claim it from the pending set and decode its header (the walk
guarantees the file exists, so the `vfs` lookup of a pending path is
defined; an undefined lookup reads as empty and decodes as invalid).
A decoding failure records an invalid finding.  In hash mode the source
hash is compared with the stored hash; in timestamp mode the truncated
integer mtime and the byte size are compared independently, each
appending its own tagged mismatch finding. -/
def checkOpt (magic : List Nat) (hashFn : List Nat → List Nat)
    (cacheTag : PathC) (vfs : VFS) (dir name : PathC) (pyFile : VFile)
    (st : VState) (opt : Option Nat) : VState :=
  let py := joinC dir name
  let pyc := cacheFromSource cacheTag dir name opt
  if pyc ∈ st.pycs then
    let st1 : VState := { st with pycs := st.pycs.erase pyc }
    let content := match vfs pyc with
      | some f => f.content
      | none => []
    match pep552Header magic content with
    | .error _ => { st1 with invalid := st1.invalid ++ [(pyc, py)] }
    | .ok (.hashMode _ h) =>
        if hashFn pyFile.content ≠ h then
          { st1 with mismatched := st1.mismatched ++ [(pyc, py, "hash")] }
        else st1
    | .ok (.timestampMode t sz) =>
        let st2 := if pyFile.stat.mtimeInt ≠ (t : Int) then
            { st1 with mismatched := st1.mismatched ++ [(pyc, py, "timestamp")] }
          else st1
        if pyFile.stat.size ≠ sz then
          { st2 with mismatched := st2.mismatched ++ [(pyc, py, "size")] }
        else st2
  else
    { st with missing := st.missing ++ [(pyc, py)] }

/-- Processing of one source file (qa.py lines 73-107): read its stat
and content once (`vfs` lookup; the walk guarantees the source exists)
and run the inner loop over the three optimization levels. -/
def checkPy (magic : List Nat) (hashFn : List Nat → List Nat)
    (cacheTag : PathC) (vfs : VFS) (st : VState) (e : WalkEntry) : VState :=
  let pyFile := (vfs (joinC e.dir e.name)).getD ⟨[], ⟨0, 0⟩⟩
  optLevels.foldl (checkOpt magic hashFn cacheTag vfs e.dir e.name pyFile) st

/-- `qa_verify_pyc` for one site directory (qa.py lines 58-117):
`entries` lists the files produced by the walk; names ending in `.py`
are sources, otherwise names ending in `.pyc` or `.pyo` are pending
caches (the `elif` of lines 68-71); every cache still pending after all
sources are processed is stray.  `magic` and `hashFn` stand for
`importlib.util.MAGIC_NUMBER` and `importlib.util.source_hash`. -/
def qaVerifySite (magic : List Nat) (hashFn : List Nat → List Nat)
    (cacheTag : PathC) (vfs : VFS) (entries : List WalkEntry) : Report :=
  let pyFiles := entries.filter (fun e => (".py").data.isSuffixOf e.name)
  let pycFiles := (entries.filter (fun e =>
      !((".py").data.isSuffixOf e.name) &&
      ((".pyc").data.isSuffixOf e.name || (".pyo").data.isSuffixOf e.name))).map
      (fun e => joinC e.dir e.name)
  let st := pyFiles.foldl (checkPy magic hashFn cacheTag vfs)
    ⟨pycFiles, [], [], []⟩
  ⟨st.missing, st.invalid, st.mismatched, st.pycs⟩

/-- The `verify-pyc` exit code, `__main__.py` line 301:
1 when any finding category is non-empty, 0 otherwise. -/
def verifyPycExitCode (r : Report) : Nat :=
  if r.missing ≠ [] ∨ r.invalid ≠ [] ∨ r.mismatched ≠ [] ∨ r.stray ≠ []
  then 1 else 0

theorem checkOpt_missing (magic : List Nat) (hashFn : List Nat → List Nat)
    (cacheTag : PathC) (vfs : VFS) (dir name : PathC) (pyFile : VFile)
    (st : VState) (opt : Option Nat)
    (h : cacheFromSource cacheTag dir name opt ∉ st.pycs) :
    checkOpt magic hashFn cacheTag vfs dir name pyFile st opt
      = { st with missing := st.missing
          ++ [(cacheFromSource cacheTag dir name opt, joinC dir name)] } := by
  unfold checkOpt
  rw [if_neg h]

theorem checkPy_empty (magic : List Nat) (hashFn : List Nat → List Nat)
    (cacheTag : PathC) (vfs : VFS) (st : VState) (e : WalkEntry)
    (h : st.pycs = []) :
    checkPy magic hashFn cacheTag vfs st e
      = { st with missing := st.missing
          ++ optLevels.map (fun o =>
              (cacheFromSource cacheTag e.dir e.name o, joinC e.dir e.name)) } := by
  obtain ⟨pycs, miss, inv, mm⟩ := st
  simp only at h
  subst h
  simp [checkPy, optLevels, checkOpt, List.append_assoc]

theorem foldl_checkPy_empty (magic : List Nat) (hashFn : List Nat → List Nat)
    (cacheTag : PathC) (vfs : VFS) :
    ∀ (l : List WalkEntry) (st : VState), st.pycs = [] →
      l.foldl (checkPy magic hashFn cacheTag vfs) st
        = { st with missing := st.missing
            ++ l.flatMap (fun e => optLevels.map (fun o =>
                (cacheFromSource cacheTag e.dir e.name o, joinC e.dir e.name))) } := by
  intro l
  induction l with
  | nil => intro st h; simp
  | cons e t ih =>
      intro st h
      rw [List.foldl_cons, checkPy_empty _ _ _ _ _ _ h, ih _ (by simp [h])]
      simp [List.append_assoc]

/-- C6: with no compiled caches present, every source file in the site
directory yields exactly three missing findings — one per optimization
level — and nothing else; and the `verify-pyc` exit code is 0 exactly
when all four finding categories are empty and 1 exactly when some
category is non-empty. -/
theorem verify_pyc_missing_three_and_exit
    (magic : List Nat) (hashFn : List Nat → List Nat) (cacheTag : PathC)
    (vfs : VFS) (entries : List WalkEntry)
    (hnoc : ∀ e ∈ entries, (".pyc").data.isSuffixOf e.name = false
        ∧ (".pyo").data.isSuffixOf e.name = false) :
    ((qaVerifySite magic hashFn cacheTag vfs entries).missing
        = (entries.filter (fun e => (".py").data.isSuffixOf e.name)).flatMap
            (fun e => optLevels.map (fun o =>
              (cacheFromSource cacheTag e.dir e.name o, joinC e.dir e.name)))
      ∧ (qaVerifySite magic hashFn cacheTag vfs entries).invalid = []
      ∧ (qaVerifySite magic hashFn cacheTag vfs entries).mismatched = []
      ∧ (qaVerifySite magic hashFn cacheTag vfs entries).stray = [])
  ∧ (∀ r : Report, verifyPycExitCode r = 0 ↔
        r.missing = [] ∧ r.invalid = [] ∧ r.mismatched = [] ∧ r.stray = [])
  ∧ (∀ r : Report, verifyPycExitCode r = 1 ↔
        ¬ (r.missing = [] ∧ r.invalid = [] ∧ r.mismatched = [] ∧ r.stray = [])) := by
  refine ⟨?_, ?_, ?_⟩
  · have hfilter : entries.filter (fun e =>
        !((".py").data.isSuffixOf e.name) &&
        ((".pyc").data.isSuffixOf e.name || (".pyo").data.isSuffixOf e.name)) = [] := by
      rw [List.filter_eq_nil_iff]
      intro e he
      simp [(hnoc e he).1, (hnoc e he).2]
    unfold qaVerifySite
    simp only [hfilter, List.map_nil]
    rw [foldl_checkPy_empty _ _ _ _ _ _ rfl]
    simp
  · intro r
    unfold verifyPycExitCode
    by_cases hP : (r.missing ≠ [] ∨ r.invalid ≠ [] ∨ r.mismatched ≠ [] ∨ r.stray ≠ [])
    · rw [if_pos hP]
      constructor
      · intro h1
        exact absurd h1 (by norm_num)
      · intro hall
        exact absurd hP (by tauto)
    · rw [if_neg hP]
      push_neg at hP
      simp [hP.1, hP.2.1, hP.2.2.1, hP.2.2.2]
  · intro r
    unfold verifyPycExitCode
    by_cases hP : (r.missing ≠ [] ∨ r.invalid ≠ [] ∨ r.mismatched ≠ [] ∨ r.stray ≠ [])
    · rw [if_pos hP]
      constructor
      · intro _
        tauto
      · intro _
        rfl
    · rw [if_neg hP]
      push_neg at hP
      constructor
      · intro h0
        exact absurd h0 (by norm_num)
      · intro hne
        exact absurd ⟨hP.1, hP.2.1, hP.2.2.1, hP.2.2.2⟩ hne

/-- Witness for C6: a single source file (`/usr/lib/sp/mod.py`) and no
cache files at all produce the three missing findings and exit code
characterizations at a concrete instance. -/
theorem verify_pyc_missing_three_and_exit_witness :
    ((qaVerifySite [1, 2, 3, 4] (fun b => b) ("tag").data (fun _ => none)
        [⟨("/usr/lib/sp").data, ("mod.py").data⟩]).missing
        = ([(⟨("/usr/lib/sp").data, ("mod.py").data⟩ : WalkEntry)].filter
            (fun e => (".py").data.isSuffixOf e.name)).flatMap
            (fun e => optLevels.map (fun o =>
              (cacheFromSource ("tag").data e.dir e.name o, joinC e.dir e.name)))
      ∧ (qaVerifySite [1, 2, 3, 4] (fun b => b) ("tag").data (fun _ => none)
          [⟨("/usr/lib/sp").data, ("mod.py").data⟩]).invalid = []
      ∧ (qaVerifySite [1, 2, 3, 4] (fun b => b) ("tag").data (fun _ => none)
          [⟨("/usr/lib/sp").data, ("mod.py").data⟩]).mismatched = []
      ∧ (qaVerifySite [1, 2, 3, 4] (fun b => b) ("tag").data (fun _ => none)
          [⟨("/usr/lib/sp").data, ("mod.py").data⟩]).stray = [])
  ∧ (∀ r : Report, verifyPycExitCode r = 0 ↔
        r.missing = [] ∧ r.invalid = [] ∧ r.mismatched = [] ∧ r.stray = [])
  ∧ (∀ r : Report, verifyPycExitCode r = 1 ↔
        ¬ (r.missing = [] ∧ r.invalid = [] ∧ r.mismatched = [] ∧ r.stray = [])) :=
  verify_pyc_missing_three_and_exit [1, 2, 3, 4] (fun b => b) ("tag").data
    (fun _ => none) [⟨("/usr/lib/sp").data, ("mod.py").data⟩] (by decide)

theorem checkOpt_timestamp_both (magic : List Nat)
    (hashFn : List Nat → List Nat) (cacheTag : PathC) (vfs : VFS)
    (dir name : PathC) (pyFile f : VFile) (st : VState) (opt : Option Nat)
    (t sz : Nat)
    (hmem : cacheFromSource cacheTag dir name opt ∈ st.pycs)
    (hv : vfs (cacheFromSource cacheTag dir name opt) = some f)
    (hp : pep552Header magic f.content = .ok (.timestampMode t sz)) :
    checkOpt magic hashFn cacheTag vfs dir name pyFile st opt
      = { st with
          pycs := st.pycs.erase (cacheFromSource cacheTag dir name opt),
          mismatched := st.mismatched
            ++ (if pyFile.stat.mtimeInt ≠ (t : Int) then
                  [(cacheFromSource cacheTag dir name opt, joinC dir name,
                    "timestamp")]
                else [])
            ++ (if pyFile.stat.size ≠ sz then
                  [(cacheFromSource cacheTag dir name opt, joinC dir name,
                    "size")]
                else []) } := by
  obtain ⟨pycs, miss, inv, mm⟩ := st
  by_cases hts : pyFile.stat.mtimeInt ≠ (t : Int) <;>
    by_cases hsz : pyFile.stat.size ≠ sz <;>
      simp [checkOpt, hmem, hv, hp, hts, hsz, List.append_assoc]

/-- C5: for every pending cache that decodes in timestamp mode, the
verifier compares the truncated integer mtime and the exact byte size
independently — the inner loop body appends a "timestamp"-tagged
mismatch exactly when the mtime disagrees and a "size"-tagged mismatch
exactly when the size disagrees, for any agreement pattern, so both
findings fire together for one file when both disagree and neither
comparison masks the other; in particular, in the scenario where all
three caches are present, agree with the source on mtime and disagree
on size, the run reports exactly one size-tagged mismatch per cache —
three per source — with no timestamp finding (and no other finding),
and `verify-pyc` exits 1. -/
theorem verify_pyc_timestamp_size_independent
    (magic : List Nat) (hashFn : List Nat → List Nat) (cacheTag : PathC)
    (vfs : VFS) (dir name : PathC) (e0 e1 e2 : WalkEntry)
    (pyFile f0 f1 f2 : VFile) (t0 t1 t2 sz0 sz1 sz2 : Nat)
    (hname : (".py").data.isSuffixOf name = true)
    (he0py : (".py").data.isSuffixOf e0.name = false)
    (he1py : (".py").data.isSuffixOf e1.name = false)
    (he2py : (".py").data.isSuffixOf e2.name = false)
    (he0c : ((".pyc").data.isSuffixOf e0.name
        || (".pyo").data.isSuffixOf e0.name) = true)
    (he1c : ((".pyc").data.isSuffixOf e1.name
        || (".pyo").data.isSuffixOf e1.name) = true)
    (he2c : ((".pyc").data.isSuffixOf e2.name
        || (".pyo").data.isSuffixOf e2.name) = true)
    (hj0 : joinC e0.dir e0.name = cacheFromSource cacheTag dir name none)
    (hj1 : joinC e1.dir e1.name = cacheFromSource cacheTag dir name (some 1))
    (hj2 : joinC e2.dir e2.name = cacheFromSource cacheTag dir name (some 2))
    (hpy : vfs (joinC dir name) = some pyFile)
    (hv0 : vfs (cacheFromSource cacheTag dir name none) = some f0)
    (hv1 : vfs (cacheFromSource cacheTag dir name (some 1)) = some f1)
    (hv2 : vfs (cacheFromSource cacheTag dir name (some 2)) = some f2)
    (hp0 : pep552Header magic f0.content = .ok (.timestampMode t0 sz0))
    (hp1 : pep552Header magic f1.content = .ok (.timestampMode t1 sz1))
    (hp2 : pep552Header magic f2.content = .ok (.timestampMode t2 sz2))
    (hm0 : pyFile.stat.mtimeInt = (t0 : Int))
    (hm1 : pyFile.stat.mtimeInt = (t1 : Int))
    (hm2 : pyFile.stat.mtimeInt = (t2 : Int))
    (hs0 : pyFile.stat.size ≠ sz0)
    (hs1 : pyFile.stat.size ≠ sz1)
    (hs2 : pyFile.stat.size ≠ sz2) :
    (∀ (st : VState) (opt : Option Nat) (pf f : VFile) (t sz : Nat),
        cacheFromSource cacheTag dir name opt ∈ st.pycs →
        vfs (cacheFromSource cacheTag dir name opt) = some f →
        pep552Header magic f.content = .ok (.timestampMode t sz) →
        checkOpt magic hashFn cacheTag vfs dir name pf st opt
          = { st with
              pycs := st.pycs.erase (cacheFromSource cacheTag dir name opt),
              mismatched := st.mismatched
                ++ (if pf.stat.mtimeInt ≠ (t : Int) then
                      [(cacheFromSource cacheTag dir name opt, joinC dir name,
                        "timestamp")]
                    else [])
                ++ (if pf.stat.size ≠ sz then
                      [(cacheFromSource cacheTag dir name opt, joinC dir name,
                        "size")]
                    else []) })
  ∧ qaVerifySite magic hashFn cacheTag vfs [⟨dir, name⟩, e0, e1, e2]
      = ⟨[], [],
          [(cacheFromSource cacheTag dir name none, joinC dir name, "size"),
           (cacheFromSource cacheTag dir name (some 1), joinC dir name, "size"),
           (cacheFromSource cacheTag dir name (some 2), joinC dir name, "size")],
          []⟩
  ∧ verifyPycExitCode
      (qaVerifySite magic hashFn cacheTag vfs [⟨dir, name⟩, e0, e1, e2]) = 1 := by
  have hmain : qaVerifySite magic hashFn cacheTag vfs [⟨dir, name⟩, e0, e1, e2]
      = ⟨[], [],
          [(cacheFromSource cacheTag dir name none, joinC dir name, "size"),
           (cacheFromSource cacheTag dir name (some 1), joinC dir name, "size"),
           (cacheFromSource cacheTag dir name (some 2), joinC dir name, "size")],
          []⟩ := by
    have hc0 : ¬ (pyFile.stat.mtimeInt ≠ (t0 : Int)) := by
      rw [hm0]
      exact fun hne => hne rfl
    have hc1 : ¬ (pyFile.stat.mtimeInt ≠ (t1 : Int)) := by
      rw [hm1]
      exact fun hne => hne rfl
    have hc2 : ¬ (pyFile.stat.mtimeInt ≠ (t2 : Int)) := by
      rw [hm2]
      exact fun hne => hne rfl
    simp [qaVerifySite, checkPy, checkOpt, optLevels, hname, he0py, he1py,
      he2py, he0c, he1c, he2c, hj0, hj1, hj2, hpy, hv0, hv1, hv2, hp0, hp1,
      hp2, hc0, hc1, hc2, hs0, hs1, hs2]
  refine ⟨?_, hmain, ?_⟩
  · intro st opt pf f t sz h1 h2 h3
    exact checkOpt_timestamp_both magic hashFn cacheTag vfs dir name pf f
      st opt t sz h1 h2 h3
  · rw [hmain]
    rfl

/-- Concrete filesystem for the C5 witness: source `/s/m.py` with
integer mtime 3 and size 7, and three caches whose timestamp-mode
headers record mtime 3 (matching) and size 9 (mismatching). -/
def sizeScenarioVfs : VFS := fun p =>
  if p = ("/s/m.py").data then some ⟨[], ⟨3, 7⟩⟩
  else if p = ("/s/__pycache__/m.t.pyc").data then
    some ⟨[1, 2, 3, 4] ++ enc32 0 ++ enc32 3 ++ enc32 9, ⟨0, 0⟩⟩
  else if p = ("/s/__pycache__/m.t.opt-1.pyc").data then
    some ⟨[1, 2, 3, 4] ++ enc32 0 ++ enc32 3 ++ enc32 9, ⟨0, 0⟩⟩
  else if p = ("/s/__pycache__/m.t.opt-2.pyc").data then
    some ⟨[1, 2, 3, 4] ++ enc32 0 ++ enc32 3 ++ enc32 9, ⟨0, 0⟩⟩
  else none

/-- Witness for C5 at the concrete scenario of `sizeScenarioVfs`: the
per-cache independent-comparison equation at the concrete site, and
exactly three size-tagged mismatches, nothing else, exit code 1. -/
theorem verify_pyc_timestamp_size_independent_witness :
    (∀ (st : VState) (opt : Option Nat) (pf f : VFile) (t sz : Nat),
        cacheFromSource ("t").data ("/s").data ("m.py").data opt ∈ st.pycs →
        sizeScenarioVfs (cacheFromSource ("t").data ("/s").data ("m.py").data opt)
          = some f →
        pep552Header [1, 2, 3, 4] f.content = .ok (.timestampMode t sz) →
        checkOpt [1, 2, 3, 4] (fun b => b) ("t").data sizeScenarioVfs
            ("/s").data ("m.py").data pf st opt
          = { st with
              pycs := st.pycs.erase
                (cacheFromSource ("t").data ("/s").data ("m.py").data opt),
              mismatched := st.mismatched
                ++ (if pf.stat.mtimeInt ≠ (t : Int) then
                      [(cacheFromSource ("t").data ("/s").data ("m.py").data opt,
                        joinC ("/s").data ("m.py").data, "timestamp")]
                    else [])
                ++ (if pf.stat.size ≠ sz then
                      [(cacheFromSource ("t").data ("/s").data ("m.py").data opt,
                        joinC ("/s").data ("m.py").data, "size")]
                    else []) })
  ∧ qaVerifySite [1, 2, 3, 4] (fun b => b) ("t").data sizeScenarioVfs
        [⟨("/s").data, ("m.py").data⟩,
         ⟨("/s/__pycache__").data, ("m.t.pyc").data⟩,
         ⟨("/s/__pycache__").data, ("m.t.opt-1.pyc").data⟩,
         ⟨("/s/__pycache__").data, ("m.t.opt-2.pyc").data⟩]
      = ⟨[], [],
          [(cacheFromSource ("t").data ("/s").data ("m.py").data none,
            joinC ("/s").data ("m.py").data, "size"),
           (cacheFromSource ("t").data ("/s").data ("m.py").data (some 1),
            joinC ("/s").data ("m.py").data, "size"),
           (cacheFromSource ("t").data ("/s").data ("m.py").data (some 2),
            joinC ("/s").data ("m.py").data, "size")],
          []⟩
  ∧ verifyPycExitCode
      (qaVerifySite [1, 2, 3, 4] (fun b => b) ("t").data sizeScenarioVfs
        [⟨("/s").data, ("m.py").data⟩,
         ⟨("/s/__pycache__").data, ("m.t.pyc").data⟩,
         ⟨("/s/__pycache__").data, ("m.t.opt-1.pyc").data⟩,
         ⟨("/s/__pycache__").data, ("m.t.opt-2.pyc").data⟩]) = 1 :=
  verify_pyc_timestamp_size_independent [1, 2, 3, 4] (fun b => b) ("t").data
    sizeScenarioVfs ("/s").data ("m.py").data
    ⟨("/s/__pycache__").data, ("m.t.pyc").data⟩
    ⟨("/s/__pycache__").data, ("m.t.opt-1.pyc").data⟩
    ⟨("/s/__pycache__").data, ("m.t.opt-2.pyc").data⟩
    ⟨[], ⟨3, 7⟩⟩
    ⟨[1, 2, 3, 4] ++ enc32 0 ++ enc32 3 ++ enc32 9, ⟨0, 0⟩⟩
    ⟨[1, 2, 3, 4] ++ enc32 0 ++ enc32 3 ++ enc32 9, ⟨0, 0⟩⟩
    ⟨[1, 2, 3, 4] ++ enc32 0 ++ enc32 3 ++ enc32 9, ⟨0, 0⟩⟩
    3 3 3 9 9 9
    (by decide) (by decide) (by decide) (by decide)
    (by decide) (by decide) (by decide)
    (by decide) (by decide) (by decide)
    (by decide) (by decide) (by decide) (by decide)
    (by rfl) (by rfl) (by rfl)
    (by decide) (by decide) (by decide)
    (by decide) (by decide) (by decide)

theorem pyc_suffix_cacheFromSource (cacheTag dir name : PathC)
    (opt : Option Nat) :
    (".pyc").data <:+ cacheFromSource cacheTag dir name opt := by
  unfold cacheFromSource
  exact List.suffix_append _ _

theorem pyo_path_ne_cache {p : PathC} (hp : (".pyo").data <:+ p)
    (cacheTag d n : PathC) (opt : Option Nat) :
    p ≠ cacheFromSource cacheTag d n opt := by
  intro he
  have hc : (".pyc").data <:+ p := by
    rw [he]
    exact pyc_suffix_cacheFromSource cacheTag d n opt
  rcases List.suffix_or_suffix_of_suffix hp hc with hx | hx
  · exact absurd (hx.eq_of_length (by decide)) (by decide)
  · exact absurd (hx.eq_of_length (by decide)) (by decide)

theorem pyo_not_py {n : PathC} (h : (".pyo").data.isSuffixOf n = true) :
    (".py").data.isSuffixOf n = false := by
  by_contra hc
  have hc1 : (".py").data.isSuffixOf n = true := by
    revert hc
    cases hval : (".py").data.isSuffixOf n <;> simp
  have h1 : (".py").data <:+ n := List.isSuffixOf_iff_suffix.mp hc1
  have h2 : (".pyo").data <:+ n := List.isSuffixOf_iff_suffix.mp h
  rcases List.suffix_or_suffix_of_suffix h1 h2 with hx | hx
  · have hb := List.isSuffixOf_iff_suffix.mpr hx
    exact absurd hb (by decide)
  · exact absurd hx.length_le (by decide)

/-- Invariant carried through the verifier loop for a path `p`:
`p` is still pending and no finding names it as its cache component. -/
def PyoInv (p : PathC) (st : VState) : Prop :=
  p ∈ st.pycs
  ∧ (∀ x ∈ st.missing, x.1 ≠ p)
  ∧ (∀ x ∈ st.invalid, x.1 ≠ p)
  ∧ (∀ x ∈ st.mismatched, x.1 ≠ p)

theorem mem_append_fst_ne {β : Type} {l : List (PathC × β)} {q c : PathC}
    {b : β} (hl : ∀ x ∈ l, x.1 ≠ q) (hc : c ≠ q) :
    ∀ x ∈ l ++ [(c, b)], x.1 ≠ q := by
  intro x hx
  rcases List.mem_append.mp hx with h | h
  · exact hl x h
  · rcases List.mem_singleton.mp h with rfl
    exact hc

theorem checkOpt_pyo_inv (magic : List Nat) (hashFn : List Nat → List Nat)
    (cacheTag : PathC) (vfs : VFS) (dir name : PathC) (pyFile : VFile)
    (st : VState) (opt : Option Nat) {p : PathC}
    (hp : (".pyo").data <:+ p) (hinv : PyoInv p st) :
    PyoInv p (checkOpt magic hashFn cacheTag vfs dir name pyFile st opt) := by
  have hne : p ≠ cacheFromSource cacheTag dir name opt :=
    pyo_path_ne_cache hp cacheTag dir name opt
  have hne2 : cacheFromSource cacheTag dir name opt ≠ p := fun h => hne h.symm
  obtain ⟨h1, h2, h3, h4⟩ := hinv
  have h1e : p ∈ st.pycs.erase (cacheFromSource cacheTag dir name opt) :=
    (List.mem_erase_of_ne hne).mpr h1
  unfold checkOpt
  by_cases hmem : cacheFromSource cacheTag dir name opt ∈ st.pycs
  · rw [if_pos hmem]
    split
    all_goals
      dsimp only
      split
      · exact ⟨h1e, h2, mem_append_fst_ne h3 hne2, h4⟩
      · rename_i cs hsh heq
        by_cases hh : hashFn pyFile.content ≠ hsh
        · rw [if_pos hh]
          exact ⟨h1e, h2, h3, mem_append_fst_ne h4 hne2⟩
        · rw [if_neg hh]
          exact ⟨h1e, h2, h3, h4⟩
      · rename_i t sz heq
        by_cases hts : pyFile.stat.mtimeInt ≠ (t : Int) <;>
          by_cases hsz : pyFile.stat.size ≠ sz
        · rw [if_pos hts, if_pos hsz]
          exact ⟨h1e, h2, h3,
            mem_append_fst_ne (mem_append_fst_ne h4 hne2) hne2⟩
        · rw [if_pos hts, if_neg hsz]
          exact ⟨h1e, h2, h3, mem_append_fst_ne h4 hne2⟩
        · rw [if_neg hts, if_pos hsz]
          exact ⟨h1e, h2, h3, mem_append_fst_ne h4 hne2⟩
        · rw [if_neg hts, if_neg hsz]
          exact ⟨h1e, h2, h3, h4⟩
  · rw [if_neg hmem]
    exact ⟨h1, mem_append_fst_ne h2 hne2, h3, h4⟩

theorem checkPy_pyo_inv (magic : List Nat) (hashFn : List Nat → List Nat)
    (cacheTag : PathC) (vfs : VFS) (st : VState) (e : WalkEntry)
    {p : PathC} (hp : (".pyo").data <:+ p) (hinv : PyoInv p st) :
    PyoInv p (checkPy magic hashFn cacheTag vfs st e) := by
  unfold checkPy
  dsimp only
  simp only [optLevels, List.foldl_cons, List.foldl_nil]
  exact checkOpt_pyo_inv _ _ _ _ _ _ _ _ _ hp
    (checkOpt_pyo_inv _ _ _ _ _ _ _ _ _ hp
      (checkOpt_pyo_inv _ _ _ _ _ _ _ _ _ hp hinv))

theorem foldl_checkPy_pyo_inv (magic : List Nat)
    (hashFn : List Nat → List Nat) (cacheTag : PathC) (vfs : VFS)
    {p : PathC} (hp : (".pyo").data <:+ p) :
    ∀ (l : List WalkEntry) (st : VState), PyoInv p st →
      PyoInv p (l.foldl (checkPy magic hashFn cacheTag vfs) st) := by
  intro l
  induction l with
  | nil =>
      intro st h
      simpa using h
  | cons e t ih =>
      intro st h
      rw [List.foldl_cons]
      exact ih _ (checkPy_pyo_inv _ _ _ _ _ _ hp h)

/-- C10: a `.pyo` file found by the walk always ends up in the stray
category: expected cache paths come from the cache-from-source
convention, which only produces `.pyc` names, so a `.pyo` path is never
claimed from the pending set and never appears as the cache component
of a missing, invalid or mismatched finding. -/
theorem verify_pyc_pyo_always_stray (magic : List Nat)
    (hashFn : List Nat → List Nat) (cacheTag : PathC) (vfs : VFS)
    (entries : List WalkEntry) (d n : PathC)
    (hmem : (⟨d, n⟩ : WalkEntry) ∈ entries)
    (hpyo : (".pyo").data.isSuffixOf n = true) :
    joinC d n ∈ (qaVerifySite magic hashFn cacheTag vfs entries).stray
  ∧ (∀ x ∈ (qaVerifySite magic hashFn cacheTag vfs entries).missing,
        x.1 ≠ joinC d n)
  ∧ (∀ x ∈ (qaVerifySite magic hashFn cacheTag vfs entries).invalid,
        x.1 ≠ joinC d n)
  ∧ (∀ x ∈ (qaVerifySite magic hashFn cacheTag vfs entries).mismatched,
        x.1 ≠ joinC d n) := by
  have hpy : (".py").data.isSuffixOf n = false := pyo_not_py hpyo
  have hsufn : (".pyo").data <:+ n := List.isSuffixOf_iff_suffix.mp hpyo
  have hsufj : (".pyo").data <:+ joinC d n := by
    refine hsufn.trans ?_
    unfold joinC
    have h1 : n <:+ ('/' :: n) := by
      rw [← List.singleton_append]
      exact List.suffix_append _ _
    exact h1.trans (List.suffix_append _ _)
  have hstart : joinC d n ∈ (entries.filter (fun e =>
      !((".py").data.isSuffixOf e.name) &&
      ((".pyc").data.isSuffixOf e.name || (".pyo").data.isSuffixOf e.name))).map
      (fun e => joinC e.dir e.name) := by
    refine List.mem_map.mpr ⟨⟨d, n⟩, ?_, rfl⟩
    refine List.mem_filter.mpr ⟨hmem, ?_⟩
    simp [hpy, hpyo]
  have hinv := foldl_checkPy_pyo_inv magic hashFn cacheTag vfs hsufj
    (entries.filter (fun e => (".py").data.isSuffixOf e.name))
    ⟨(entries.filter (fun e =>
        !((".py").data.isSuffixOf e.name) &&
        ((".pyc").data.isSuffixOf e.name
          || (".pyo").data.isSuffixOf e.name))).map
        (fun e => joinC e.dir e.name), [], [], []⟩
    ⟨hstart, by simp, by simp, by simp⟩
  obtain ⟨hA, hB, hC, hD⟩ := hinv
  exact ⟨hA, hB, hC, hD⟩

/-- Witness for C10: a lone `/s/old.pyo` file is reported stray and
appears in no other category. -/
theorem verify_pyc_pyo_always_stray_witness :
    joinC ("/s").data ("old.pyo").data
      ∈ (qaVerifySite [1, 2, 3, 4] (fun b => b) ("t").data (fun _ => none)
          [⟨("/s").data, ("old.pyo").data⟩]).stray
  ∧ (∀ x ∈ (qaVerifySite [1, 2, 3, 4] (fun b => b) ("t").data (fun _ => none)
          [⟨("/s").data, ("old.pyo").data⟩]).missing,
        x.1 ≠ joinC ("/s").data ("old.pyo").data)
  ∧ (∀ x ∈ (qaVerifySite [1, 2, 3, 4] (fun b => b) ("t").data (fun _ => none)
          [⟨("/s").data, ("old.pyo").data⟩]).invalid,
        x.1 ≠ joinC ("/s").data ("old.pyo").data)
  ∧ (∀ x ∈ (qaVerifySite [1, 2, 3, 4] (fun b => b) ("t").data (fun _ => none)
          [⟨("/s").data, ("old.pyo").data⟩]).mismatched,
        x.1 ≠ joinC ("/s").data ("old.pyo").data) :=
  verify_pyc_pyo_always_stray [1, 2, 3, 4] (fun b => b) ("t").data
    (fun _ => none) [⟨("/s").data, ("old.pyo").data⟩] ("/s").data
    ("old.pyo").data (by decide) (by decide)

/-! ## Symlink deduplication (`gpep517/install.py`,
`DeduplicatingDestination.write_to_fs` lines 80-103) -/

/-- A filesystem node for the dedup model: a regular file with its
bytes and mtime (the stat signature data `filecmp` reads), or a
symbolic link holding its stored (relative) target. -/
inductive FsNode where
  | file (content : List Nat) (mtime : Int)
  | symlink (target : List String)
  deriving DecidableEq, Repr

/-- The dedup filesystem: nodes indexed by normalized absolute
component paths. -/
def DFS : Type := List String → Option FsNode

/-- Logical path normalization on components, as performed by
`os.path.normpath` on the relative paths the code manipulates: empty
and `.` components vanish, `..` pops the previous real component and
accumulates at the front otherwise. -/
def normChunks : List String → List String → List String
  | acc, [] => acc.reverse
  | acc, c :: rest =>
      if c = "." ∨ c = "" then normChunks acc rest
      else if c = ".." then
        match acc with
        | [] => normChunks [".."] rest
        | a :: as =>
            if a = ".." then normChunks (".." :: a :: as) rest
            else normChunks as rest
      else normChunks (c :: acc) rest

/-- Normalize a component path. -/
def normpath (p : List String) : List String :=
  normChunks [] p

/-- `Path.is_symlink` at a path (lookups normalize, mirroring how the
operating system resolves the `..` segments the code builds; the code
itself notes it deliberately uses logical normalization). -/
def isSymlinkAt (fs : DFS) (p : List String) : Bool :=
  match fs (normpath p) with
  | some (.symlink _) => true
  | _ => false

/-- `Path.readlink`: the stored target of a symlink. -/
def readlinkAt (fs : DFS) (p : List String) : Option (List String) :=
  match fs (normpath p) with
  | some (.symlink t) => some t
  | _ => none

/-- `PurePath.parent` on components. -/
def parentPath (p : List String) : List String :=
  p.dropLast

/-- The `while full_target.is_symlink()` loop of install.py lines 90-96:
starting from the relative `symlink_target`, repeatedly read the link
at `orig_path.parent / symlink_target` and renormalize
`symlink_target.parent / existing` until the joined path is no longer a
symlink; the Python loop is unbounded (a link cycle never terminates),
so the model carries fuel and returns `none` when it runs out. -/
def followChain (fs : DFS) (origParent : List String) :
    Nat → List String → Option (List String)
  | 0, _ => none
  | fuel + 1, symlinkTarget =>
      if isSymlinkAt fs (origParent ++ symlinkTarget) then
        match readlinkAt fs (origParent ++ symlinkTarget) with
        | some existing =>
            followChain fs origParent fuel
              (normpath (parentPath symlinkTarget ++ existing))
        | none => none
      else some symlinkTarget

/-- Python's `filecmp.cmp(f1, f2)` as called at install.py lines 97 and
129 — with its default `shallow=True`: a missing operand raises
`FileNotFoundError`; non-regular operands compare unequal; when both
stat signatures (type, size, mtime) coincide the files are deemed equal
WITHOUT reading contents; otherwise unequal sizes are unequal and
equal-size files are compared byte-for-byte.  (The callers only reach
this with non-symlink paths, so the lookup needs no extra link
resolution.) -/
def filecmpCmp (fs : DFS) (p1 p2 : List String) : Except PyErr Bool :=
  match fs (normpath p1), fs (normpath p2) with
  | none, _ => .error .fileNotFound
  | _, none => .error .fileNotFound
  | some (.file c1 m1), some (.file c2 m2) =>
      if c1.length = c2.length ∧ m1 = m2 then .ok true
      else if c1.length ≠ c2.length then .ok false
      else .ok (c1 == c2)
  | _, _ => .ok false

/-- `check_symlink_to` (install.py lines 53-60): fail with
`FileNotFoundError` when the dedup root reference does not exist under
the destination tree. -/
def checkSymlinkTo (fs : DFS) (destdirPurelib symlinkTo : List String) :
    Except PyErr Unit :=
  if (fs (normpath (destdirPurelib ++ symlinkTo))).isSome then .ok ()
  else .error .fileNotFound

/-- The dedup postprocessing of install.py lines 80-103 for a
purelib/platlib entry `path` just written at
`destdirPurelib ++ path`: build the initial relative target
(`..` segments, the dedup root, the entry path), resolve through any
existing symlink chain, then compare the just-written file with the
resolved target; `FileNotFoundError` routes through
`check_symlink_to`, inequality keeps the copy, and equality replaces
the written file with a symlink to the resolved relative target.
Exhausted fuel (the unbounded Python loop still spinning) is reported
as a `RuntimeError` distinct from every real outcome. -/
def dedupSymlinkStep (fuel : Nat) (fs : DFS)
    (destdirPurelib symlinkTo path : List String) : Except PyErr DFS :=
  let pathDir := parentPath path
  let toTopDir : List String := List.replicate pathDir.length ".."
  let symlinkTarget := toTopDir ++ symlinkTo ++ path
  let origPath := destdirPurelib ++ path
  let origParent := parentPath origPath
  match followChain fs origParent fuel symlinkTarget with
  | none => .error .runtimeError
  | some rt =>
      match filecmpCmp fs origPath (origParent ++ rt) with
      | .ok false => .ok fs
      | .ok true =>
          .ok (fun q =>
            if q = normpath origPath then some (.symlink rt) else fs q)
      | .error .fileNotFound =>
          match checkSymlinkTo fs destdirPurelib symlinkTo with
          | .ok _ => .ok fs
          | .error e => .error e
      | .error e => .error e

theorem followChain_not_symlink (fs : DFS) (origParent : List String) :
    ∀ (fuel : Nat) (relT rt : List String),
      followChain fs origParent fuel relT = some rt →
      isSymlinkAt fs (origParent ++ rt) = false := by
  intro fuel
  induction fuel with
  | zero =>
      intro relT rt h
      simp [followChain] at h
  | succ k ih =>
      intro relT rt h
      unfold followChain at h
      by_cases hs : isSymlinkAt fs (origParent ++ relT) = true
      · rw [if_pos hs] at h
        cases hr : readlinkAt fs (origParent ++ relT) with
        | none =>
            rw [hr] at h
            exact absurd h (by simp)
        | some ex =>
            rw [hr] at h
            exact ih _ _ h
      · rw [if_neg hs] at h
        cases Option.some.inj h
        exact Bool.eq_false_iff.mpr hs

/-- C2: whenever the dedup step replaces the just-written file (a
regular file in the pre-state) with a symlink, the symlink's relative
target is exactly the result of following the existing symlink chain at
the equivalent dedup-root path until a non-symlink is reached — so the
created link points at a path that is not a symlink in the pre-state,
never at an intermediate link. -/
theorem dedup_symlink_chain_resolved (fuel : Nat) (fs fs2 : DFS)
    (destdirPurelib symlinkTo path : List String)
    (c : List Nat) (m : Int) (rt : List String)
    (horig : fs (normpath (destdirPurelib ++ path)) = some (.file c m))
    (hres : dedupSymlinkStep fuel fs destdirPurelib symlinkTo path = .ok fs2)
    (hlink : fs2 (normpath (destdirPurelib ++ path)) = some (.symlink rt)) :
    followChain fs (parentPath (destdirPurelib ++ path)) fuel
        (List.replicate (parentPath path).length ".." ++ symlinkTo ++ path)
      = some rt
  ∧ isSymlinkAt fs (parentPath (destdirPurelib ++ path) ++ rt) = false := by
  unfold dedupSymlinkStep at hres
  dsimp only at hres
  cases hfc : followChain fs (parentPath (destdirPurelib ++ path)) fuel
      (List.replicate (parentPath path).length ".." ++ symlinkTo ++ path) with
  | none =>
      rw [hfc] at hres
      exact absurd hres (by simp)
  | some rt2 =>
      rw [hfc] at hres
      dsimp only at hres
      cases hcmp : filecmpCmp fs (destdirPurelib ++ path)
          (parentPath (destdirPurelib ++ path) ++ rt2) with
      | ok b =>
          rw [hcmp] at hres
          cases b with
          | false =>
              dsimp only at hres
              cases Except.ok.inj hres
              rw [horig] at hlink
              exact absurd hlink (by simp)
          | true =>
              dsimp only at hres
              cases Except.ok.inj hres
              simp only [if_pos rfl] at hlink
              cases Option.some.inj hlink
              exact ⟨rfl, followChain_not_symlink fs _ fuel _ _ hfc⟩
      | error e =>
          rw [hcmp] at hres
          cases e with
          | fileNotFound =>
              dsimp only at hres
              cases hck : checkSymlinkTo fs destdirPurelib symlinkTo with
              | ok u =>
                  rw [hck] at hres
                  dsimp only at hres
                  cases Except.ok.inj hres
                  rw [horig] at hlink
                  exact absurd hlink (by simp)
              | error e2 =>
                  rw [hck] at hres
                  simp at hres
          | fileExists => simp at hres
          | runtimeError => simp at hres
          | notImplementedError => simp at hres

/-- Concrete filesystem for the C2 witness: the second tree's
`foo/a.py` was just written; the first tree's copy is already a symlink
into a zeroth tree, whose copy is the physical file. -/
def chainFs : DFS := fun q =>
  if q = ["d", "second", "sp", "foo", "a.py"] then some (.file [7] 0)
  else if q = ["d", "first", "sp", "foo", "a.py"] then
    some (.symlink ["..", "..", "..", "zero", "sp", "foo", "a.py"])
  else if q = ["d", "zero", "sp", "foo", "a.py"] then some (.file [7] 9)
  else none

/-- The filesystem after the dedup step of the C2 witness: the written
file replaced by a symlink pointing past the intermediate link. -/
def chainResultFs : DFS := fun q =>
  if q = ["d", "second", "sp", "foo", "a.py"] then
    some (.symlink ["..", "..", "..", "zero", "sp", "foo", "a.py"])
  else chainFs q

/-- Witness for C2 on `chainFs`: the chain through the first tree's
symlink is resolved to the zeroth tree's physical file, and the
resolved target is not a symlink. -/
theorem dedup_symlink_chain_resolved_witness :
    followChain chainFs (parentPath (["d", "second", "sp"] ++ ["foo", "a.py"])) 5
        (List.replicate (parentPath ["foo", "a.py"]).length ".."
          ++ ["..", "..", "first", "sp"] ++ ["foo", "a.py"])
      = some ["..", "..", "..", "zero", "sp", "foo", "a.py"]
  ∧ isSymlinkAt chainFs
      (parentPath (["d", "second", "sp"] ++ ["foo", "a.py"])
        ++ ["..", "..", "..", "zero", "sp", "foo", "a.py"]) = false :=
  dedup_symlink_chain_resolved 5 chainFs chainResultFs
    ["d", "second", "sp"] ["..", "..", "first", "sp"] ["foo", "a.py"]
    [7] 0 ["..", "..", "..", "zero", "sp", "foo", "a.py"]
    (by decide) (by rfl) (by decide)

/-- Concrete filesystem for C3: the just-written file and the dedup-root
file have the same length and the same mtime — an identical stat
signature — but different bytes. -/
def metadataTwinFs : DFS := fun q =>
  if q = ["d", "second", "sp", "a.py"] then some (.file [0] 7)
  else if q = ["d", "first", "sp", "a.py"] then some (.file [1] 7)
  else none

/-- Result of the dedup step on `metadataTwinFs`: the copy is replaced
by a symlink although the contents differ. -/
def metadataTwinResult : DFS := fun q =>
  if q = ["d", "second", "sp", "a.py"] then
    some (.symlink ["..", "..", "first", "sp", "a.py"])
  else metadataTwinFs q

/-- Counterexample for C3: `filecmp.cmp` is called with its default
`shallow=True`, so two files with identical (type, size, mtime) stat
signatures but different bytes compare equal without any content read,
and the dedup step replaces the just-written file with a symlink to a
file whose bytes differ — the comparison is not byte-for-byte. -/
theorem dedup_symlink_despite_different_bytes :
    metadataTwinFs ["d", "second", "sp", "a.py"] = some (.file [0] 7)
  ∧ metadataTwinFs ["d", "first", "sp", "a.py"] = some (.file [1] 7)
  ∧ ([0] : List Nat) ≠ [1]
  ∧ dedupSymlinkStep 5 metadataTwinFs ["d", "second", "sp"]
      ["..", "..", "first", "sp"] ["a.py"] = .ok metadataTwinResult
  ∧ metadataTwinResult ["d", "second", "sp", "a.py"]
      = some (.symlink ["..", "..", "first", "sp", "a.py"]) :=
  ⟨by decide, by decide, by decide, by rfl, by decide⟩

/-- C3 (amended): every deduplication equality check is
`filecmp.cmp` with its default shallow mode (install.py lines 97 and
129): for two regular files it returns true exactly when the lengths
are equal and additionally the mtimes are equal (stat-signature
shortcut, no content read) or the contents are byte-identical — so
byte-identical files always compare equal, but metadata-identical files
with different bytes do too. -/
theorem filecmp_cmp_shallow_characterization (fs : DFS)
    (p1 p2 : List String) (c1 c2 : List Nat) (m1 m2 : Int)
    (h1 : fs (normpath p1) = some (.file c1 m1))
    (h2 : fs (normpath p2) = some (.file c2 m2)) :
    filecmpCmp fs p1 p2
      = .ok (decide (c1.length = c2.length ∧ (m1 = m2 ∨ c1 = c2))) := by
  unfold filecmpCmp
  rw [h1, h2]
  by_cases hl : c1.length = c2.length
  · by_cases hm : m1 = m2
    · simp [hl, hm]
    · simp only [hl, hm, true_and, false_or, if_neg, ite_false, ite_true,
        and_false, if_false]
      simp [hm]
      rw [Bool.eq_iff_iff]
      simp [beq_iff_eq]
  · have hne : c1 ≠ c2 := fun hc => hl (by rw [hc])
    simp [hl, hne]

/-- Witness for C3 (amended) on `metadataTwinFs`: equal length and
equal mtime make the comparison succeed although the bytes differ. -/
theorem filecmp_cmp_shallow_characterization_witness :
    filecmpCmp metadataTwinFs ["d", "second", "sp", "a.py"]
        ["d", "first", "sp", "a.py"]
      = .ok (decide (([0] : List Nat).length = ([1] : List Nat).length
          ∧ ((7 : Int) = 7 ∨ ([0] : List Nat) = [1]))) :=
  filecmp_cmp_shallow_characterization metadataTwinFs
    ["d", "second", "sp", "a.py"] ["d", "first", "sp", "a.py"]
    [0] [1] 7 7 (by decide) (by decide)
